import Mathlib

/-!
Verification of the Infinium stock-analysis program (shallow embedding).

Each definition below embeds one function or constant of the Python source
(src/infinium.py, src/lib/data.py, src/lib/consts.py, src/lib/ui/config.py,
src/lib/ui/cli.py, src/lib/ui/base.py, src/lib/db/yml.py, src/lib/ml.py).
Python dicts are modelled as association lists (lookup finds the first
matching key; assignment replaces an existing binding in place or appends a
new one, matching dict insertion-order semantics).  YAML scalars stored in
the two-level configuration mapping are modelled as strings.  Python floats
entered through the money/ratio prompts are modelled as rationals; the
claims checked here depend only on zero/non-zero and equality, which the
rational model preserves.
-/

namespace Infinium

/-! ## Exit codes (src/lib/data.py, src/lib/consts.py `ExitCode`) -/

/-- Embeds the `ExitCode` enumeration: `success = 0`,
`config_file_not_found = 1`, `config_file_corrupt = 2`. -/
inductive ExitCode where
  | success
  | config_file_not_found
  | config_file_corrupt
deriving DecidableEq

/-- The `.value` of each `ExitCode` member, as declared in the source. -/
def ExitCode.val : ExitCode → Nat
  | ExitCode.success => 0
  | ExitCode.config_file_not_found => 1
  | ExitCode.config_file_corrupt => 2

/-- The argument passed to `sys.exit`: either an `int` (such as
`ExitCode.success.value`), or some other object (such as a bare `ExitCode`
enum member, which is not an `int` because `ExitCode` derives from `Enum`,
not `IntEnum`). -/
inductive SysExitArg where
  | intArg (n : Nat)
  | otherObject (repr : String)
deriving DecidableEq

/-- CPython semantics of `sys.exit(arg)`: an `int` argument becomes the
process exit status; any non-`int`, non-`None` object is printed to stderr
and the process exits with status 1. -/
def sysExitStatus : SysExitArg → Nat
  | SysExitArg.intArg n => n
  | SysExitArg.otherObject _ => 1

/-- Embeds `sys.exit(ExitCode.success.value)` from `launch_cli`
(src/lib/ui/cli.py): the argument given when the user selects `exit` from
the CLI main menu. -/
def cliExitArg : SysExitArg := SysExitArg.intArg ExitCode.success.val

/-- Embeds `sys.exit(consts.ExitCode.config_file_not_found)` from `main`
(src/infinium.py): the Enum member itself is passed, not its `.value`. -/
def mainConfigNotFoundExitArg : SysExitArg :=
  SysExitArg.otherObject "ExitCode.config_file_not_found"

/-- Embeds `sys.exit(consts.ExitCode.config_file_corrupt)` from the
`except ConfigFileCorruptError` handler of `main` (src/infinium.py): the
Enum member itself is passed, not its `.value`. -/
def mainConfigCorruptExitArg : SysExitArg :=
  SysExitArg.otherObject "ExitCode.config_file_corrupt"

/-- Embeds `sys.exit(consts.ExitCode.success)` from the
`MainOperation.exit` branch of `main` (src/infinium.py): again the Enum
member itself is passed. -/
def mainLoopExitArg : SysExitArg :=
  SysExitArg.otherObject "ExitCode.success"

/-! ## Not-implemented operations (src/lib/ml.py, src/lib/ui/cli.py,
src/infinium.py `launch_user_interface`) -/

/-- Outcome of calling one of the unimplemented operations: each either
raises `NotImplementedError` carrying a message (`str(e)` of the raised
exception; `NotImplementedError()` with no argument has message `""`),
returns a value, or falls through doing nothing. -/
inductive CallOutcome where
  | raisesNotImplemented (message : String)
  | returnsValue
  | doesNothing
deriving DecidableEq

/-- Embeds `lib.ml.extract_training_data`. -/
def extract_training_data : CallOutcome :=
  CallOutcome.raisesNotImplemented "`extract_training_data` not yet implemented."

/-- Embeds `lib.ml.train_classifier`. -/
def train_classifier : CallOutcome :=
  CallOutcome.raisesNotImplemented "`train_classifier` not yet implemented."

/-- Embeds `lib.ml.load_model` (its message names `load_valuation_model`). -/
def load_model : CallOutcome :=
  CallOutcome.raisesNotImplemented "`load_valuation_model` operation not yet implemented."

/-- Embeds `lib.ml.save_model` (its message names `save_valuation_model`). -/
def save_model : CallOutcome :=
  CallOutcome.raisesNotImplemented "`save_valuation_model` operation not yet implemented."

/-- Embeds `lib.ml.evaluate_model`. -/
def evaluate_model : CallOutcome :=
  CallOutcome.raisesNotImplemented "`evaluate_model` operation not yet implemented."

/-- Embeds the `parse_annual_report` branch of `launch_cli`
(src/lib/ui/cli.py): `raise NotImplementedError()` with no message. -/
def cliParseAnnualReport : CallOutcome := CallOutcome.raisesNotImplemented ""

/-- Embeds the `analyze_stock` branch of `launch_cli`
(src/lib/ui/cli.py): `raise NotImplementedError()` with no message. -/
def cliAnalyzeStock : CallOutcome := CallOutcome.raisesNotImplemented ""

/-- Embeds the graphical branch of `launch_user_interface`
(src/infinium.py). -/
def launchGui : CallOutcome :=
  CallOutcome.raisesNotImplemented "GUI under construction. Please use CLI."

/-- Is the outcome a raised `NotImplementedError` (as opposed to returning
a value or doing nothing)? -/
def CallOutcome.isNotImplementedRaise : CallOutcome → Bool
  | CallOutcome.raisesNotImplemented _ => true
  | _ => false

/-- Message carried by the outcome (empty when none was raised). -/
def CallOutcome.message : CallOutcome → String
  | CallOutcome.raisesNotImplemented m => m
  | _ => ""

/-! ## Association lists standing in for Python dicts -/

/-- `d[k]` lookup: first binding of `k`, if any. -/
def alistGet {κ α : Type} [DecidableEq κ] : List (κ × α) → κ → Option α
  | [], _ => none
  | (k0, v) :: rest, k => if k = k0 then some v else alistGet rest k

/-- `d[k] = v` assignment: replace the first binding of `k` in place, or
append a new binding when `k` is absent (dict insertion order). -/
def alistSet {κ α : Type} [DecidableEq κ] : List (κ × α) → κ → α → List (κ × α)
  | [], k, v => [(k, v)]
  | (k0, v0) :: rest, k, v =>
    if k = k0 then (k0, v) :: rest else (k0, v0) :: alistSet rest k v

/-! ## `MainOperation` and its string tables (src/lib/consts.py; an
identical copy lives in src/lib/ui/base.py) -/

/-- Embeds the four-valued `MainOperation` enumeration of
src/lib/consts.py and src/lib/ui/base.py. -/
inductive MainOperation where
  | construct_model
  | add_database_entry
  | analyze_stock
  | exit
deriving DecidableEq

/-- Embeds `STR_TO_MAIN_OPERATION`: three entries; `exit` has none, and
the string for `add_database_entry` is `"add_data"`. -/
def STR_TO_MAIN_OPERATION : List (String × MainOperation) :=
  [("construct_model", MainOperation.construct_model),
   ("add_data", MainOperation.add_database_entry),
   ("analyze_stock", MainOperation.analyze_stock)]

/-- Embeds `MAIN_OPERATION_TO_STR`, built by reversing each pair of
`STR_TO_MAIN_OPERATION` (the dict comprehension
`{value: key for key, value in STR_TO_MAIN_OPERATION.items()}`). -/
def MAIN_OPERATION_TO_STR : List (MainOperation × String) :=
  STR_TO_MAIN_OPERATION.map (fun p => (p.2, p.1))

/-! ## YamlDatabase construction (src/lib/db/yml.py) -/

/-- The local names visible in the body of `YamlDatabase.__init__`: the
parameter is spelled `database_path`; no other name is bound. -/
def yamlDbInitLocals (database_path : String) : String → Option String :=
  fun name => if name = "database_path" then some database_path else none

/-- Result of `YamlDatabase.__init__`. -/
inductive YamlDbInit where
  | ok (path : String)
  | nameError (missing : String)
deriving DecidableEq

/-- Embeds `YamlDatabase.__init__`: its first statement is
`self.__database_path = database_pathn`, whose right-hand side reads the
name `database_pathn`.  That name resolves against the locals (then
globals) of the method; it is bound nowhere, so CPython raises
`NameError` before `database_path.open()` is ever reached.  The `ok`
branch (store the path, then open and parse the file) is unreachable. -/
def yamlDatabaseInit (database_path : String) : YamlDbInit :=
  match yamlDbInitLocals database_path "database_pathn" with
  | none => YamlDbInit.nameError "database_pathn"
  | some v => YamlDbInit.ok v

/-! ## The configuration object (src/lib/ui/config.py `_Configuration`) -/

/-- A top-level value of the parsed YAML configuration mapping: either a
scalar (modelled as its string form) or a section, itself a mapping from
field names to scalars. -/
inductive TopVal where
  | str (s : String)
  | sect (entries : List (String × String))
deriving DecidableEq

/-- The in-memory `self.__configuration` dict: top-level keys are section
names (but a failed rollback can also put a scalar at top level). -/
abbrev Config := List (String × TopVal)

/-- Exceptions the configuration accessors can raise. -/
inductive PyErr where
  | keyError (key : String)
  | typeError
  | configFileCorrupt
  | reraisedWriteError
deriving DecidableEq

/-- Embeds `_Configuration.__get_field(section, field)`.  The code
acquires the module lock, then inside `try` returns
`self.__configuration[section][field]`; a `KeyError` (missing section or
missing field) is turned into `ConfigFileCorruptError` by
`__handle_key_error`; a scalar sitting where a section is expected gives
`TypeError` (string indexed by string), which the `except KeyError` clause
does not catch; the `finally` clause releases the lock on every one of
these paths.  The first component of the result is whether the lock is
still held when the call ends. -/
def getField (cfg : Config) (sec field : String) :
    Bool × Except PyErr String :=
  match alistGet cfg sec with
  | none => (false, Except.error PyErr.configFileCorrupt)
  | some (TopVal.str _) => (false, Except.error PyErr.typeError)
  | some (TopVal.sect entries) =>
    match alistGet entries field with
    | some v => (false, Except.ok v)
    | none => (false, Except.error PyErr.configFileCorrupt)

/-- Embeds `_Configuration.__update_field(section, field, new_value)`.
After `new_value = str(new_value)` (the identity here, since the model
takes the string) the code acquires the module lock, reads
`old_value = self.__configuration[section][field]` and assigns
`self.__configuration[section][field] = new_value` — both still outside
the `try`, so a missing section or field raises `KeyError` with the lock
held.  Then it dumps the whole structure to disk inside `try`; if the
write raises, the `except` clause executes
`self.__configuration[field] = old_value` — note: a top-level assignment,
not `[section][field]` — and re-raises, and the `finally` clause releases
the lock.  Result: (lock still held?, in-memory dict afterwards, raised
exception if any).  `writeFails` says whether the disk write raises. -/
def updateField (cfg : Config) (sec field new_value : String)
    (writeFails : Bool) : Bool × Config × Option PyErr :=
  match alistGet cfg sec with
  | none => (true, cfg, some (PyErr.keyError sec))
  | some (TopVal.str _) => (true, cfg, some PyErr.typeError)
  | some (TopVal.sect entries) =>
    match alistGet entries field with
    | none => (true, cfg, some (PyErr.keyError field))
    | some old_value =>
      let cfg1 := alistSet cfg sec (TopVal.sect (alistSet entries field new_value))
      if writeFails then
        (false, alistSet cfg1 field (TopVal.str old_value), some PyErr.reraisedWriteError)
      else
        (false, cfg1, none)

/-- The module-level mutable state of src/lib/ui/config.py: the singleton
`_configuration` (here just the parsed dict) and whether `_thread_lock`
is currently held. -/
structure ConfigModule where
  configuration : Option Config
  lockHeld : Bool
deriving DecidableEq

/-- Embeds `get_config()`: `_thread_lock.acquire()`; if `_configuration`
is unset, run the `_Configuration()` constructor (whose outcome —
a parsed dict, or a raised `ConfigFileNotFoundError`/`OSError` — is the
`loadResult` argument); then `_thread_lock.release()` and return.  There
is no `try`/`finally`, so when the constructor raises, the release
statement never runs and the exception propagates with the lock held. -/
def getConfig (m : ConfigModule) (loadResult : Except Unit Config) :
    ConfigModule × Except Unit Config :=
  let m1 : ConfigModule := { m with lockHeld := true }
  match m1.configuration with
  | some c => ({ m1 with lockHeld := false }, Except.ok c)
  | none =>
    match loadResult with
    | Except.ok c => ({ configuration := some c, lockHeld := false }, Except.ok c)
    | Except.error e => (m1, Except.error e)

/-! ## Configuration file discovery (src/lib/ui/config.py
`_Configuration.__init__`, src/lib/data.py constants) -/

/-- `CONFIG_FILE_NAME` from src/lib/data.py. -/
def CONFIG_FILE_NAME : String := ".infinium.yml"

/-- `str(DEFAULT_CONFIG_PATH)` from src/lib/data.py:
`DEFAULT_CONFIG_PATH = Path('~/')`, which `pathlib` renders as the literal
relative path `~` — it is never passed through `expanduser`, so it does
not denote the user's home directory. -/
def DEFAULT_CONFIG_PATH : String := "~"

/-- `str(Path(dir) / file)` for a directory string with no trailing
slash. -/
def pathJoin (dir file : String) : String := dir ++ "/" ++ file

/-- The environment `_Configuration.__init__` runs in: which path strings
exist on disk (relative paths are resolved against the current working
directory by the OS, so a relative string and an absolute string are
distinct keys), the value of the `INFINIUM_CONFIG` environment variable,
the user's real home directory (used only by the spec model below), and
`str(INSTALL_PATH)` (`Path(argv[0]).parent`). -/
structure FsEnv where
  fileExists : String → Bool
  configVarValue : Option String
  homeDir : String
  installDir : String

/-- Result of the search part of `_Configuration.__init__`. -/
inductive ConfigSearch where
  | found (path : String)
  | configFileNotFound
deriving DecidableEq

/-- Embeds the path search of `_Configuration.__init__`:
`cwd_config_path = Path(CONFIG_FILE_NAME)`;
`environ_config_dir = Path(getenv(CONFIG_VAR, DEFAULT_CONFIG_PATH))`;
`environ_config_path = environ_config_dir / CONFIG_FILE_NAME`;
`install_config_path = INSTALL_PATH / CONFIG_FILE_NAME`; then the first
of the three that `.exists()` is chosen, and if none exists,
`ConfigFileNotFoundError` is raised (no other exception is possible in
this chain of existence tests). -/
def configFileSearch (e : FsEnv) : ConfigSearch :=
  let cwd_config_path := CONFIG_FILE_NAME
  let environ_config_dir := e.configVarValue.getD DEFAULT_CONFIG_PATH
  let environ_config_path := pathJoin environ_config_dir CONFIG_FILE_NAME
  let install_config_path := pathJoin e.installDir CONFIG_FILE_NAME
  if e.fileExists cwd_config_path then ConfigSearch.found cwd_config_path
  else if e.fileExists environ_config_path then ConfigSearch.found environ_config_path
  else if e.fileExists install_config_path then ConfigSearch.found install_config_path
  else ConfigSearch.configFileNotFound

/-- Modelled from the spec: the same three-location search, but with the
fallback directory for an unset `INFINIUM_CONFIG` being the user's home
directory, as the spec's words "defaulting to the user's home directory
when that variable is unset" require. -/
def configFileSearchSpec (e : FsEnv) : ConfigSearch :=
  let cwd_config_path := CONFIG_FILE_NAME
  let environ_config_dir := e.configVarValue.getD e.homeDir
  let environ_config_path := pathJoin environ_config_dir CONFIG_FILE_NAME
  let install_config_path := pathJoin e.installDir CONFIG_FILE_NAME
  if e.fileExists cwd_config_path then ConfigSearch.found cwd_config_path
  else if e.fileExists environ_config_path then ConfigSearch.found environ_config_path
  else if e.fileExists install_config_path then ConfigSearch.found install_config_path
  else ConfigSearch.configFileNotFound

/-- A concrete environment for exercising the search: the configuration
file exists only in the user's home directory `/home/user`,
`INFINIUM_CONFIG` is unset, and the installation directory is
`/usr/lib/infinium`. -/
def homeOnlyEnv : FsEnv where
  fileExists := fun p => p == "/home/user/.infinium.yml"
  configVarValue := none
  homeDir := "/home/user"
  installDir := "/usr/lib/infinium"

/-! ## Validated prompting (src/lib/ui/cli.py `_prompt_until_valid`) -/

/-- `re.search('.+', s)` for the default pattern: succeeds iff `s`
contains at least one character other than a newline (`.` matches any
character except `\n`). -/
def defaultPattern (s : String) : Bool := s.data.any (fun c => c ≠ '\n')

/-- Python `str.strip()`: remove leading and trailing whitespace. -/
def pyStrip (s : String) : String :=
  String.mk
    (((s.data.dropWhile Char.isWhitespace).reverse.dropWhile
      Char.isWhitespace).reverse)

/-- Python `int(s)`: strip surrounding whitespace, allow one optional
leading sign, then require a non-empty run of decimal digits. -/
def pyInt (s : String) : Option Int :=
  let chars := (pyStrip s).data
  let signed : Int × List Char :=
    match chars with
    | '-' :: rest => (-1, rest)
    | '+' :: rest => (1, rest)
    | _ => (1, chars)
  match signed with
  | (sign, digits) =>
    if digits.isEmpty then none
    else if digits.all Char.isDigit then
      some (sign * ((digits.foldl (fun n c => n * 10 + (c.toNat - 48)) 0 : Nat) : Int))
    else none

/-- One pass of the body of the `while True` loop of
`_prompt_until_valid`, applied to a single line of user input.
Outcomes: `some (some v)` — the input was accepted and converted to `v`;
`some none` — the prompt is `nullable` and the stripped input was empty,
so the function returns `None`; `none` — a `ValueError` was raised
(pattern mismatch, failed conversion, or an out-of-bounds value), so the
loop prints the error and prompts again.  The checks run in source
order: the nullable blank test, then `re.search(pattern, user_input)`,
then `type_(user_input)`, then
`bounds and not bounds[0] <= typed_input < bounds[1]`. -/
def promptStep (pat : String → Bool) (conv : String → Option Int)
    (nullable : Bool) (bounds : Option (Int × Int)) (user_input : String) :
    Option (Option Int) :=
  if nullable && pyStrip user_input == "" then some none
  else if !(pat user_input) then none
  else
    match conv user_input with
    | none => none
    | some typed_input =>
      match bounds with
      | some (lo, hi) =>
        if lo ≤ typed_input ∧ typed_input < hi then some (some typed_input) else none
      | none => some (some typed_input)

/-- `_prompt_until_valid` over a finite queue of user input lines:
rejected lines are consumed and the loop re-prompts on the next one;
`none` means the queue ran out before any line was accepted. -/
def promptUntilValid (pat : String → Bool) (conv : String → Option Int)
    (nullable : Bool) (bounds : Option (Int × Int)) :
    List String → Option (Option Int)
  | [] => none
  | s :: rest =>
    match promptStep pat conv nullable bounds s with
    | some r => some r
    | none => promptUntilValid pat conv nullable bounds rest

/-- Embeds `new_industry = count + 2 if industries else 1` from
`_add_database_entry`: after `for count, industry in enumerate(industries)`
the variable `count` equals `len(industries) - 1`, so with a non-empty
industry list the "Add new industry" option is numbered `len + 1`, and
with an empty list it is numbered 1. -/
def newIndustryNumber (industries : List String) : Nat :=
  match industries.length with
  | 0 => 1
  | Nat.succ n => n + 2

/-- The industry-selection prompt of `_add_database_entry` applied to one
input line: default pattern, `type_=int`, no nullability, and
`bounds=(1, new_industry + 1)`. -/
def industryPromptStep (industries : List String) (user_input : String) :
    Option (Option Int) :=
  promptStep defaultPattern pyInt false
    (some (1, (newIndustryNumber industries : Int) + 1)) user_input

/-! ## Staging database entries (src/lib/ui/cli.py `_add_database_entry`,
`_prompt_financials`) -/

/-- A record staged on the SQLAlchemy session by the add-entry flow.
Dates are kept as (year, month, day) triples; money and ratio values as
rationals. -/
inductive DbRecord where
  | stock (company_id : String) (price : ℚ) (year month day : Int)
  | finances (company_id : String) (year month day : Int)
      (return_on_equity net_profit_margin net_sales net_income
       earnings_per_share_growth total_current_assets
       total_current_liabilities free_cash_flow operating_margin : ℚ)
deriving DecidableEq

/-- The prompt text issued for return on equity. -/
def roePrompt : String := "Enter return on equity: "

/-- The eight financial-statement prompts that follow return on equity,
in source order. -/
def financialPrompts : List String :=
  ["Enter net profit margin: ", "Enter net sales: ", "Enter net income: ",
   "Enter earnings per share growth: ", "Enter total current assets: ",
   "Enter total current liabilities: ", "Enter free cash flow: ",
   "Enter operating margin: "]

/-- The user's answers to the financial-statement prompts: `roe` is the
value produced by the nullable return-on-equity prompt (`none` models a
blank line, i.e. `_prompt_until_valid` returned `None`); the other eight
are the values the required prompts would eventually produce if issued. -/
structure FinAnswers where
  roe : Option ℚ
  npm : ℚ
  net_sales : ℚ
  net_income : ℚ
  epsg : ℚ
  tca : ℚ
  tcl : ℚ
  fcf : ℚ
  operating_margin : ℚ
deriving DecidableEq

/-- Embeds `_prompt_financials(session, company_id, year)`: prompt for
return on equity (nullable); then `if not roe: return` — which takes the
early return both when `roe` is `None` and when it is `0.0`, since both
are falsy.  Otherwise issue the eight remaining prompts (none of them
nullable) and stage exactly one `Finances` record with
`year=date(year, 1, 1)`.  Result: (prompts issued, session afterwards). -/
def promptFinancials (session : List DbRecord) (company_id : String)
    (year : Int) (a : FinAnswers) : List String × List DbRecord :=
  match a.roe with
  | none => ([roePrompt], session)
  | some roe =>
    if roe = 0 then ([roePrompt], session)
    else
      ([roePrompt] ++ financialPrompts,
       session ++ [DbRecord.finances company_id year 1 1 roe a.npm a.net_sales
         a.net_income a.epsg a.tca a.tcl a.fcf a.operating_margin])

/-- Embeds the stock-observation block of `_add_database_entry`: after the
nullable price and year prompts, `if price and year:` guards the month
and day prompts and `session.add(stock)`.  A `price` of `None` or `0.0`
and a `year` of `None` or `0` are all falsy, so any of them skips the
whole block.  Result: (month/day prompts issued, session afterwards). -/
def stageStock (session : List DbRecord) (company_id : String)
    (price : Option ℚ) (year : Option Int) (monthAnswer dayAnswer : Int) :
    List String × List DbRecord :=
  match price, year with
  | some p, some y =>
    if p ≠ 0 ∧ y ≠ 0 then
      (["Enter target month: ", "Enter target day: "],
       session ++ [DbRecord.stock company_id p y monthAnswer dayAnswer])
    else ([], session)
  | _, _ => ([], session)

/-! ## Helper lemmas -/

/-- Equality of `Except` results is decidable componentwise. -/
instance {ε α : Type} [DecidableEq ε] [DecidableEq α] :
    DecidableEq (Except ε α) := fun x y =>
  match x, y with
  | Except.ok a, Except.ok b =>
    if h : a = b then isTrue (congrArg Except.ok h)
    else isFalse (fun hh => h (Except.ok.inj hh))
  | Except.ok _, Except.error _ => isFalse (fun hh => Except.noConfusion hh)
  | Except.error _, Except.ok _ => isFalse (fun hh => Except.noConfusion hh)
  | Except.error e, Except.error f =>
    if h : e = f then isTrue (congrArg Except.error h)
    else isFalse (fun hh => h (Except.error.inj hh))

/-- With `nullable = false` and bounds `(lo, hi)`, a single prompt pass
accepts an input exactly when the pattern matches, the conversion
succeeds, and the converted value lies in `[lo, hi)`. -/
theorem promptStep_accept_iff (pat : String → Bool) (conv : String → Option Int)
    (lo hi : Int) (s : String) (v : Int) :
    promptStep pat conv false (some (lo, hi)) s = some (some v) ↔
      pat s = true ∧ conv s = some v ∧ lo ≤ v ∧ v < hi := by
  unfold promptStep
  cases hp : pat s <;> rcases hc : conv s with _ | t <;> simp [hp, hc]
  constructor
  · rintro ⟨⟨h1, h2⟩, rfl⟩
    exact ⟨rfl, h1, h2⟩
  · rintro ⟨rfl, h1, h2⟩
    exact ⟨⟨h1, h2⟩, rfl⟩

/-- A non-empty industry list makes the "Add new industry" option number
`length + 1`. -/
theorem newIndustryNumber_of_pos (industries : List String)
    (h : 1 ≤ industries.length) :
    newIndustryNumber industries = industries.length + 1 := by
  unfold newIndustryNumber
  rcases hn : industries.length with _ | n
  · omega
  · rfl

/-! ## Claim theorems -/

/-- C1: the claim is that `exit` from the main menu gives process exit
status 0, a missing settings file gives status 1, and a
`ConfigFileCorruptError` gives status 2.  The CLI menu path passes
`ExitCode.success.value` (an `int`) and indeed exits with 0, and the
missing-settings-file path happens to exit with 1 — but only because
`main` passes the bare Enum member `ExitCode.config_file_not_found` to
`sys.exit`, which exits any non-`int` argument with status 1.  For the
same reason the corrupt-config path exits with status 1, not the 2 that
`ExitCode.config_file_corrupt` declares, and `main`'s own exit branch
(`sys.exit(consts.ExitCode.success)`) exits with 1, not 0. -/
theorem c1_exit_status_divergence :
    sysExitStatus cliExitArg = 0 ∧
    sysExitStatus mainConfigNotFoundExitArg = 1 ∧
    sysExitStatus mainConfigCorruptExitArg = 1 ∧
    ExitCode.val ExitCode.config_file_corrupt = 2 ∧
    sysExitStatus mainLoopExitArg = 1 := by decide

/-- C2: the claim is that a failed on-disk write rolls the in-memory
section field back to its prior value.  With configuration
`{general: {model_path: "a"}}`, setting `model_path` to `"b"` with a
failing write leaves `configuration["general"]["model_path"]` equal to
`"b"` (a subsequent read returns the new value, not the restored old
one), because the rollback statement assigns
`self.__configuration[field] = old_value` at top level rather than
`self.__configuration[section][field]`; the old value `"a"` lands under
a stray top-level `"model_path"` key.  The exception is re-raised, and a
successful write does make a re-read return the new value. -/
theorem c2_rollback_divergence :
    (getField (updateField [("general", TopVal.sect [("model_path", "a")])]
        "general" "model_path" "b" false).2.1 "general" "model_path" =
      (false, Except.ok "b")) ∧
    (getField (updateField [("general", TopVal.sect [("model_path", "a")])]
        "general" "model_path" "b" true).2.1 "general" "model_path" =
      (false, Except.ok "b")) ∧
    (alistGet (updateField [("general", TopVal.sect [("model_path", "a")])]
        "general" "model_path" "b" true).2.1 "model_path" =
      some (TopVal.str "a")) ∧
    ((updateField [("general", TopVal.sect [("model_path", "a")])]
        "general" "model_path" "b" true).2.2 = some PyErr.reraisedWriteError) := by
  decide

/-- C3 counterexample: the analyze-stock and parse-annual-report menu
choices raise `NotImplementedError()` with an empty message — identical
outcomes, so the claimed "distinct, identifiably-labeled" failure does
not hold for them. -/
theorem c3_counterexample :
    cliParseAnnualReport = cliAnalyzeStock ∧
    CallOutcome.message cliAnalyzeStock = "" := by decide

/-- C3 amended: every one of the eight operations raises
`NotImplementedError` rather than returning a value or doing nothing;
the five model-layer functions and the graphical interface carry
pairwise-distinct non-empty messages, while the analyze-stock and
parse-annual-report menu choices raise it with an empty message. -/
theorem c3_all_raise_not_implemented :
    ([extract_training_data, train_classifier, load_model, save_model,
      evaluate_model, cliParseAnnualReport, cliAnalyzeStock, launchGui].all
        CallOutcome.isNotImplementedRaise = true) ∧
    ([extract_training_data, train_classifier, load_model, save_model,
      evaluate_model, launchGui].map CallOutcome.message).Nodup ∧
    (∀ m ∈ [extract_training_data, train_classifier, load_model, save_model,
      evaluate_model, launchGui], CallOutcome.message m ≠ "") ∧
    CallOutcome.message cliParseAnnualReport = "" ∧
    CallOutcome.message cliAnalyzeStock = "" := by decide

/-- C4 counterexample: the string tables are not total over
`MainOperation` — the `exit` value has no canonical string in
`MAIN_OPERATION_TO_STR` (nor any string mapping to it in
`STR_TO_MAIN_OPERATION`), so "for every value of the enumeration there
is a canonical string" is false at `MainOperation.exit`. -/
theorem c4_counterexample :
    alistGet MAIN_OPERATION_TO_STR MainOperation.exit = none ∧
    (∀ s ∈ STR_TO_MAIN_OPERATION, s.2 ≠ MainOperation.exit) := by decide

/-- C4 amended: the two tables form a bijection between the three
strings `construct_model`, `add_data`, `analyze_stock` and the three
enumeration values other than `exit`: each such value converts to its
string and back to itself, no two values share a string, and `exit` is
absent from both tables. -/
theorem c4_partial_bijection :
    (alistGet MAIN_OPERATION_TO_STR MainOperation.construct_model =
        some "construct_model" ∧
      alistGet STR_TO_MAIN_OPERATION "construct_model" =
        some MainOperation.construct_model) ∧
    (alistGet MAIN_OPERATION_TO_STR MainOperation.add_database_entry =
        some "add_data" ∧
      alistGet STR_TO_MAIN_OPERATION "add_data" =
        some MainOperation.add_database_entry) ∧
    (alistGet MAIN_OPERATION_TO_STR MainOperation.analyze_stock =
        some "analyze_stock" ∧
      alistGet STR_TO_MAIN_OPERATION "analyze_stock" =
        some MainOperation.analyze_stock) ∧
    alistGet MAIN_OPERATION_TO_STR MainOperation.exit = none ∧
    (MAIN_OPERATION_TO_STR.map Prod.snd).Nodup ∧
    (STR_TO_MAIN_OPERATION.map Prod.fst).Nodup := by decide

/-- C5: the claim is that with `INFINIUM_CONFIG` unset the second search
location is the user's home directory.  In an environment where the
configuration file exists only at `/home/user/.infinium.yml` (the home
directory), the code raises `ConfigFileNotFoundError`: absent the
environment variable it tests the literal relative path
`~/.infinium.yml` (a directory named `~` under the current working
directory), because `Path('~/')` is never expanded.  The spec-modelled
search that defaults to the home directory finds the file. -/
theorem c5_home_default_divergence :
    configFileSearch homeOnlyEnv = ConfigSearch.configFileNotFound ∧
    configFileSearchSpec homeOnlyEnv =
      ConfigSearch.found "/home/user/.infinium.yml" ∧
    pathJoin DEFAULT_CONFIG_PATH CONFIG_FILE_NAME = "~/.infinium.yml" := by
  decide

/-- C6: a validated prompt with bound `(lo, hi)` accepts exactly the
converted inputs `v` with `lo ≤ v < hi` and re-prompts (consumes the line
and moves to the next) on all others; a nullable prompt returns no value
for a blank (whitespace-only) line; with `N ≥ 1` existing industries the
"Add new industry" option is numbered `N + 1` and the industry prompt
accepts exactly the selections `1` through `N + 1` inclusive; with no
industries the option is numbered 1. -/
theorem c6_prompt_validation :
    (∀ (pat : String → Bool) (conv : String → Option Int) (lo hi : Int)
        (s : String) (v : Int),
        promptStep pat conv false (some (lo, hi)) s = some (some v) ↔
          pat s = true ∧ conv s = some v ∧ lo ≤ v ∧ v < hi) ∧
    (∀ (pat : String → Bool) (conv : String → Option Int)
        (bounds : Option (Int × Int)) (s : String), pyStrip s = "" →
        promptStep pat conv true bounds s = some none) ∧
    (∀ (pat : String → Bool) (conv : String → Option Int) (nullable : Bool)
        (bounds : Option (Int × Int)) (s : String) (rest : List String),
        promptStep pat conv nullable bounds s = none →
        promptUntilValid pat conv nullable bounds (s :: rest) =
          promptUntilValid pat conv nullable bounds rest) ∧
    (∀ industries : List String, 1 ≤ industries.length →
        newIndustryNumber industries = industries.length + 1) ∧
    (∀ (industries : List String) (s : String) (v : Int),
        1 ≤ industries.length →
        (industryPromptStep industries s = some (some v) ↔
          defaultPattern s = true ∧ pyInt s = some v ∧
            1 ≤ v ∧ v ≤ (industries.length : Int) + 1)) ∧
    newIndustryNumber [] = 1 := by
  refine ⟨promptStep_accept_iff, ?_, ?_, newIndustryNumber_of_pos, ?_, rfl⟩
  · intro pat conv bounds s hs
    unfold promptStep
    simp [hs]
  · intro pat conv nullable bounds s rest h
    have hstep : promptUntilValid pat conv nullable bounds (s :: rest) =
        match promptStep pat conv nullable bounds s with
        | some r => some r
        | none => promptUntilValid pat conv nullable bounds rest := rfl
    rw [hstep, h]
  · intro industries s v h
    unfold industryPromptStep
    rw [newIndustryNumber_of_pos industries h]
    rw [promptStep_accept_iff]
    constructor
    · rintro ⟨h1, h2, h3, h4⟩
      refine ⟨h1, h2, h3, ?_⟩
      push_cast at h4
      omega
    · rintro ⟨h1, h2, h3, h4⟩
      refine ⟨h1, h2, h3, ?_⟩
      push_cast
      omega

/-- C6 witness: with three industries the "Add new industry" option is
numbered 4 and the input line `"4"` is accepted as selection 4 (the top
of the inclusive range 1–4); a blank line at a nullable prompt yields no
value. -/
theorem c6_prompt_validation_witness :
    industryPromptStep ["tech", "energy", "retail"] "4" = some (some 4) ∧
    newIndustryNumber ["tech", "energy", "retail"] = 4 ∧
    promptStep defaultPattern pyInt true none " " = some none := by
  refine ⟨?_, ?_, ?_⟩
  · exact (c6_prompt_validation.2.2.2.2.1 ["tech", "energy", "retail"] "4" 4
      (by decide)).mpr (by decide)
  · exact c6_prompt_validation.2.2.2.1 ["tech", "energy", "retail"] (by decide)
  · exact c6_prompt_validation.2.1 defaultPattern pyInt none " " (by decide)

/-- C7 counterexample: an answer of `0` to the return-on-equity prompt
(the user types `0`, which the nullable prompt converts and returns as
the value `0.0`) is a given value, yet the flow issues none of the eight
remaining prompts and stages no `Finances` record — `if not roe` treats
`0.0` like `None` — contradicting the claim that whenever a value is
given, exactly one record is staged. -/
theorem c7_counterexample :
    promptFinancials [] "ACME" 2019
      { roe := some 0, npm := 1, net_sales := 1, net_income := 1, epsg := 1,
        tca := 1, tcl := 1, fcf := 1, operating_margin := 1 } =
      ([roePrompt], []) := by decide

/-- C7 amended: answering the return-on-equity prompt with no value
issues none of the eight remaining prompts and stages nothing; when a
*non-zero* value is given, all eight remaining prompts are issued (none
nullable) and exactly one `Finances` record for that company and year —
year normalized to January 1st — is appended to the session.  (A value
of zero behaves like no value; see the counterexample.) -/
theorem c7_skip_or_complete (session : List DbRecord) (company_id : String)
    (year : Int) (a : FinAnswers) :
    (a.roe = none →
      promptFinancials session company_id year a = ([roePrompt], session)) ∧
    (∀ v : ℚ, a.roe = some v → v ≠ 0 →
      promptFinancials session company_id year a =
        ([roePrompt] ++ financialPrompts,
         session ++ [DbRecord.finances company_id year 1 1 v a.npm a.net_sales
           a.net_income a.epsg a.tca a.tcl a.fcf a.operating_margin])) := by
  constructor
  · intro h
    unfold promptFinancials
    rw [h]
  · intro v hv hnz
    unfold promptFinancials
    rw [hv]
    simp [hnz]

/-- C7 witness: a concrete run of each branch — a blank return-on-equity
answer stages nothing, and a return on equity of 1 stages exactly one
record with the year normalized to January 1st. -/
theorem c7_skip_or_complete_witness :
    promptFinancials [] "ACME" 2019
      { roe := none, npm := 2, net_sales := 3, net_income := 4, epsg := 5,
        tca := 6, tcl := 7, fcf := 8, operating_margin := 9 } =
      ([roePrompt], []) ∧
    promptFinancials [] "ACME" 2019
      { roe := some 1, npm := 2, net_sales := 3, net_income := 4, epsg := 5,
        tca := 6, tcl := 7, fcf := 8, operating_margin := 9 } =
      ([roePrompt] ++ financialPrompts,
       [DbRecord.finances "ACME" 2019 1 1 1 2 3 4 5 6 7 8 9]) := by
  constructor
  · exact (c7_skip_or_complete [] "ACME" 2019
      { roe := none, npm := 2, net_sales := 3, net_income := 4, epsg := 5,
        tca := 6, tcl := 7, fcf := 8, operating_margin := 9 }).1 rfl
  · exact (c7_skip_or_complete [] "ACME" 2019
      { roe := some 1, npm := 2, net_sales := 3, net_income := 4, epsg := 5,
        tca := 6, tcl := 7, fcf := 8, operating_margin := 9 }).2 1 rfl
      (by norm_num)

/-- C8: the claim is that constructing a `YamlDatabase` succeeds whenever
the file exists and is valid YAML.  In fact every construction raises
`NameError`: the first statement of `__init__` reads the misspelled name
`database_pathn`, which is bound neither as a local (the parameter is
`database_path`) nor globally, so the constructor fails before the file
is even opened, for every path. -/
theorem c8_init_always_name_error :
    ∀ database_path : String,
      yamlDatabaseInit database_path = YamlDbInit.nameError "database_pathn" :=
  fun _ => rfl

/-- C9: the claim is that the configuration lock is released on every
exit path of `get_config`, `__get_field` and `__update_field`, including
exceptional ones.  `__get_field` does release on all paths (value found,
corrupt field, type error), and so do `get_config`'s non-raising paths
and `__update_field` whenever the section and field exist (write
succeeding or failing).  But `get_config` has no `try`/`finally`: when
the `_Configuration()` constructor raises (e.g. the settings file is
missing), the release statement is never reached and the lock stays
held; and `__update_field` reads the old value before its `try`, so a
missing field raises `KeyError` with the lock held.  A subsequent call
can then never acquire it. -/
theorem c9_lock_release_divergence :
    ((getConfig { configuration := none, lockHeld := false }
        (Except.error ())).1.lockHeld = true) ∧
    ((updateField [("general", TopVal.sect [])] "general" "model_path" "x"
        true).1 = true) ∧
    (∀ (cfg : Config) (sec field : String), (getField cfg sec field).1 = false) ∧
    (∀ (v : String) (writeFails : Bool),
      (updateField [("general", TopVal.sect [("model_path", "a")])] "general"
        "model_path" v writeFails).1 = false) ∧
    (∀ c : Config,
      (getConfig { configuration := none, lockHeld := false }
        (Except.ok c)).1.lockHeld = false) ∧
    (∀ (c : Config) (r : Except Unit Config),
      (getConfig { configuration := some c, lockHeld := false }
        r).1.lockHeld = false) := by
  refine ⟨rfl, rfl, ?_, ?_, fun c => rfl, fun c r => rfl⟩
  · intro cfg sec field
    unfold getField
    split
    · rfl
    · rfl
    · split <;> rfl
  · intro v writeFails
    cases writeFails <;> rfl

/-- C10: in the add-entry flow a converted value of exactly zero is
treated the same as entering no value, because `if price and year:` and
`if not roe:` test truthiness, not presence: a stock price of 0 stages
no stock observation (and issues no month/day prompts) whatever year was
supplied, and a return on equity of 0 makes the financial-statement form
behave exactly as a blank answer does. -/
theorem c10_zero_treated_as_absent :
    (∀ (session : List DbRecord) (company_id : String) (year : Option Int)
        (monthAnswer dayAnswer : Int),
        stageStock session company_id (some 0) year monthAnswer dayAnswer =
          ([], session)) ∧
    (∀ (session : List DbRecord) (company_id : String) (year : Int)
        (a : FinAnswers),
        promptFinancials session company_id year { a with roe := some 0 } =
          promptFinancials session company_id year { a with roe := none }) := by
  constructor
  · intro session company_id year m d
    unfold stageStock
    rcases year with _ | y
    · rfl
    · simp
  · intro session company_id year a
    unfold promptFinancials
    simp

end Infinium
